import Mathlib

/-!
Shallow embedding of `login_script.py` (auto-login-clawcloud): the login-flow
sequencer with retry/verification logic, its success heuristic, the 2FA
sub-protocol, device-verification polling, the credential precondition check,
and the exit-code discipline of the fatal paths.

Pages are modelled by the observables the script actually reads: the current
URL string, element visibility per selector, per-text element counts, and
whether a browser operation raises.  Python substring tests (`needle in url`)
become a decidable infix test on character lists.
-/

/-- Python substring test `needle in hay`, on character lists. -/
def strContains (hay needle : String) : Bool :=
  decide (needle.toList <:+: hay.toList)

/-- Python truthiness of an optional string: `None` and the empty string are
falsy. -/
def truthy : Option String → Bool
  | none => false
  | some s => !s.isEmpty

-- ==================== configuration constants (from the source) ==========

def MAX_2FA_RETRIES : Nat := 3
def WAIT_AFTER_2FA : Nat := 5
def FINAL_WAIT : Nat := 25

-- ==================== verify_login_success ====================

/-- The fixed list of post-login landmark phrases tried by check 3 of
`verify_login_success` (`page_text_checks` in the source). -/
def page_text_checks : List String :=
  ["App Launchpad", "Devbox", "Dashboard", "Create", "Workspace"]

/-- The user-menu/avatar selectors tried by check 4 of `verify_login_success`. -/
def user_menu_selectors : List String :=
  ["[data-testid='user-menu']", "button[aria-label*='user' i]",
   ".user-avatar", "[class*='avatar']"]

/-- Observables of the final page read by `verify_login_success`: the final
URL, the element count per text (`page.get_by_text(t).count()`) and the
element count per selector (`page.locator(sel).count()`). -/
structure FinalPage where
  url : String
  textCount : String → Nat
  selCount : String → Nat

/-- Check 1 of `verify_login_success`: URL on the target host without the
sign-in marker. -/
def sigURL (p : FinalPage) : Bool :=
  strContains p.url "claw.cloud" && !(strContains p.url "signin")

/-- Check 2 of `verify_login_success`: URL not on the provider host. -/
def sigNotGithub (p : FinalPage) : Bool :=
  !(strContains p.url "github.com")

/-- Check 3 of `verify_login_success`: some landmark phrase occurs in the
page text (the source loop breaks on the first match). -/
def sigText (p : FinalPage) : Bool :=
  page_text_checks.any (fun t => p.textCount t > 0)

/-- Check 4 of `verify_login_success`: some user-menu/avatar selector matches
(the source loop breaks on the first match). -/
def sigUserMenu (p : FinalPage) : Bool :=
  user_menu_selectors.any (fun s => p.selCount s > 0)

/-- One indicator entry for the first list element satisfying `f`, none
otherwise: the shape of the break-on-first-match loops of checks 3 and 4. -/
def firstHit (l : List String) (f : String → Bool) : List String :=
  match l.find? f with
  | some a => [a]
  | none => []

/-- The `success_indicators` list built by `verify_login_success`: each of the
four checks appends at most one entry. -/
def success_indicators (p : FinalPage) : List String :=
  (if sigURL p then ["URL correct"] else []) ++
  (if sigNotGithub p then ["left GitHub"] else []) ++
  firstHit page_text_checks (fun t => p.textCount t > 0) ++
  firstHit user_menu_selectors (fun s => p.selCount s > 0)

/-- `verify_login_success`: success iff at least two indicators were
collected. -/
def verify_login_success (p : FinalPage) : Bool :=
  decide ((success_indicators p).length ≥ 2)

/-- The tally of true signals among the four independent checks. -/
def numSignals (p : FinalPage) : Nat :=
  (cond (sigURL p) 1 0) + (cond (sigNotGithub p) 1 0) +
  (cond (sigText p) 1 0) + (cond (sigUserMenu p) 1 0)

/-- A page with exactly two true signals (target-host URL, off the provider
host; no landmark text, no user menu). -/
def pageTwoSignals : FinalPage :=
  ⟨"https://ap-northeast-1.run.claw.cloud/", fun _ => 0, fun _ => 0⟩

/-- A page with exactly one true signal (provider-host URL, so checks 1 and 2
fail; an avatar element present; no landmark text). -/
def pageOneSignal : FinalPage :=
  ⟨"https://github.com/login", fun _ => 0,
   fun s => if s = ".user-avatar" then 1 else 0⟩

-- ==================== handle_2fa_verification ====================

/-- The 2FA success test (line 224): the current URL has left the two-factor
location. -/
def twofa_left (u : String) : Bool :=
  !(strContains u "two-factor") && !(strContains u "sessions/two-factor")

/-- Per-attempt observables of the 2FA page: whether a code-input field is
visible at attempt `i`, whether the fill/submit block raises at attempt `i`,
and the URL observed at the post-submission check of attempt `i`. -/
structure TwoFAPage where
  inputFound : Nat → Bool
  fillRaises : Nat → Bool
  urlAfter : Nat → String

/-- The retry loop of `handle_2fa_verification`, from attempt index `attempt`
with `fuel = MAX_2FA_RETRIES - attempt` iterations left and `codes` one-time
codes generated so far.  Each entered iteration first generates a fresh code
(the TOTP generator is an external capability, modelled as total); a missing
input field on the last attempt returns failure, otherwise it continues; an
exception in the fill/submit block skips the URL check and continues;
leaving the two-factor location returns success immediately; running out of
iterations is the exit of the `for` loop, returning failure. -/
def twofaGoAux (pg : TwoFAPage) : Nat → Nat → Nat → Bool × Nat
  | 0, _, codes => (false, codes)
  | fuel + 1, attempt, codes =>
    let c := codes + 1
    if pg.inputFound attempt = false then
      if attempt = MAX_2FA_RETRIES - 1 then (false, c)
      else twofaGoAux pg fuel (attempt + 1) c
    else if pg.fillRaises attempt then
      twofaGoAux pg fuel (attempt + 1) c
    else if twofa_left (pg.urlAfter attempt) then (true, c)
    else twofaGoAux pg fuel (attempt + 1) c

/-- `handle_2fa_verification`: a falsy TOTP secret fails at once with no code
generated; otherwise the retry loop runs over `MAX_2FA_RETRIES` attempts.
The result records the outcome and the number of one-time codes generated. -/
def handle_2fa_verification (totp_secret : Option String) (pg : TwoFAPage) :
    Bool × Nat :=
  if truthy totp_secret = false then (false, 0)
  else twofaGoAux pg MAX_2FA_RETRIES 0 0

/-- A 2FA page that never leaves the two-factor location. -/
def twofaStuckPage : TwoFAPage :=
  ⟨fun _ => true, fun _ => false, fun _ => "https://github.com/sessions/two-factor"⟩

/-- A 2FA page whose first submission is accepted: the URL observed after
attempt 0 is off the two-factor location. -/
def twofaFirstTryPage : TwoFAPage :=
  ⟨fun _ => true, fun _ => false, fun _ => "https://ap-northeast-1.run.claw.cloud/"⟩

-- ==================== the retry sleep (line 250) ====================

/-- Python float modulo `t % m`, modelled over the rationals:
`t - m * ⌊t / m⌋`. -/
def pythonMod (t m : ℚ) : ℚ := t - m * ⌊t / m⌋

/-- Line 250: `time.sleep(32 - (time.time() % 30))`, the sleep until the next
TOTP rotation window, as a function of the wall-clock phase `t`. -/
def sleep_to_next_window (t : ℚ) : ℚ := 32 - pythonMod t 30

-- ==================== handle_device_verification ====================

/-- The device-verification location test (lines 284 and 296): the URL has
left the device-verification location. -/
def device_left (u : String) : Bool :=
  !(strContains u "verified-device") && !(strContains u "device-verification")

/-- Observable of the device-verification page: the URL read `t` seconds
after polling starts. -/
structure DevicePage where
  urlAt : Nat → String

/-- The polling loop of `handle_device_verification` from loop index `i` with
`fuel = 60 - i` iterations left: each iteration sleeps one second (so
iteration `i` observes the URL at elapsed second `i + 1`) and checks the
location only when `i % 10 = 0`; when the iterations run out, a final check
reads the URL at second 60.  The result records the outcome and the elapsed
seconds at return. -/
def deviceLoopAux (pg : DevicePage) : Nat → Nat → Bool × Nat
  | 0, _ => if device_left (pg.urlAt 60) then (true, 60) else (false, 60)
  | fuel + 1, i =>
    if i % 10 = 0 && device_left (pg.urlAt (i + 1)) then (true, i + 1)
    else deviceLoopAux pg fuel (i + 1)

/-- `handle_device_verification`: run the 60-tick polling loop from index 0. -/
def handle_device_verification (pg : DevicePage) : Bool × Nat :=
  deviceLoopAux pg 60 0

/-- A device page whose location changes at second 45. -/
def devPageChangeAt45 : DevicePage :=
  ⟨fun t => if t < 45 then "https://github.com/sessions/verified-device"
            else "https://ap-northeast-1.run.claw.cloud/"⟩

/-- A device page that never leaves the device-verification location. -/
def devPageNeverLeaves : DevicePage :=
  ⟨fun _ => "https://github.com/sessions/verified-device"⟩

-- ==================== run_login: credentials and exit codes ==========

/-- The environment variables read at the start of `run_login`. -/
structure Env where
  gh_username : Option String
  gh_password : Option String
  gh_2fa_secret : Option String

/-- What the prefix of `run_login` does: exit the process with a code before
any browser is launched, or go on to launch the browser. -/
inductive StartOutcome where
  | exitCode : Nat → StartOutcome
  | browserLaunched : StartOutcome
deriving DecidableEq

/-- The credential-precondition prefix of `run_login` (lines 392-405): if
either credential is falsy, `sys.exit(1)` runs before `sync_playwright`
is entered. -/
def run_login_start (env : Env) : StartOutcome :=
  if !truthy env.gh_username || !truthy env.gh_password then .exitCode 1
  else .browserLaunched

/-- An environment with the username unset. -/
def envNoUsername : Env := ⟨none, some "hunter2", none⟩

/-- The fatal conditions of the failure taxonomy. -/
inductive FailureReason where
  | missingCredentials
  | providerButtonNotFound
  | submitControlNotFound
  | deviceVerificationTimeout
  | twoFactorFailed
  | loginUnconfirmed
  | userInterrupted
  | unhandledException
deriving DecidableEq

/-- The exit code taken at each fatal path of `run_login`: every programmatic
failure calls `sys.exit(1)`; the `KeyboardInterrupt` handler calls
`sys.exit(130)`. -/
def exitCodeOf : FailureReason → Nat
  | .userInterrupted => 130
  | _ => 1

-- ==================== fill_github_credentials ====================

/-- The submit-control selectors tried by `fill_github_credentials`. -/
def submit_selectors : List String :=
  ["input[name='commit']", "input[type='submit']", "button[type='submit']",
   "button:has-text('Sign in')"]

/-- Observables of the provider login page: whether the username field
becomes visible within its 10-second wait, whether a fill operation raises,
and submit-control visibility per selector. -/
structure CredPage where
  loginFieldVisible : Bool
  fillRaises : Bool
  vis : String → Bool

/-- `try_click`: try each selector in order and click the first visible
match; report whether any was clicked (lookup failures are swallowed and
treated as not found). -/
def try_click (vis : String → Bool) (selectors : List String) : Bool :=
  selectors.any vis

/-- `fill_github_credentials`: the wait on the username field or any fill
operation raising is caught and returns failure; otherwise the result is
whether a submit control was found and clicked. -/
def fill_github_credentials (pg : CredPage) : Bool :=
  if !pg.loginFieldVisible || pg.fillRaises then false
  else try_click pg.vis submit_selectors

/-- The caller fragment at lines 464-467 of `run_login`: a failed credential
submission is fatal (`sys.exit(1)`); `none` means the flow continues. -/
def github_login_step (pg : CredPage) : Option Nat :=
  if fill_github_credentials pg then none else some 1

/-- A login page where the fields fill fine but no submit control exists. -/
def credPageNoSubmit : CredPage := ⟨true, false, fun _ => false⟩

-- ==================== theorems ====================

theorem firstHit_length (l : List String) (f : String → Bool) :
    (firstHit l f).length = cond (l.any f) 1 0 := by
  unfold firstHit
  cases h : l.find? f with
  | none =>
    have ha : l.any f = false := by
      rw [List.any_eq_false]
      intro x hx
      simpa using List.find?_eq_none.mp h x hx
    simp [ha]
  | some a =>
    have ha : l.any f = true :=
      List.any_eq_true.mpr ⟨a, List.mem_of_find?_eq_some h, List.find?_some h⟩
    simp [ha]

theorem success_indicators_length (p : FinalPage) :
    (success_indicators p).length = numSignals p := by
  unfold success_indicators numSignals sigText sigUserMenu
  simp only [List.length_append, firstHit_length]
  cases sigURL p <;> cases sigNotGithub p <;>
    cases page_text_checks.any (fun t => p.textCount t > 0) <;>
    cases user_menu_selectors.any (fun s => p.selCount s > 0) <;> simp

/-- Claim C1: `verify_login_success` declares success iff at least 2 of its 4
independent signals hold, each contributing at most one point to the tally;
in particular a page state with exactly 2 true signals yields success and one
with exactly 1 true signal yields failure. -/
theorem verify_login_success_iff (p : FinalPage) :
    (verify_login_success p = true ↔ 2 ≤ numSignals p)
    ∧ (numSignals p = 2 → verify_login_success p = true)
    ∧ (numSignals p = 1 → verify_login_success p = false) := by
  have h : verify_login_success p = true ↔ 2 ≤ numSignals p := by
    unfold verify_login_success
    rw [decide_eq_true_iff, ge_iff_le, success_indicators_length]
  refine ⟨h, fun h2 => h.mpr (by omega), fun h1 => ?_⟩
  cases hv : verify_login_success p
  · rfl
  · exact absurd (h.mp hv) (by omega)

/-- Witness for C1: a concrete page with exactly two true signals succeeds
and a concrete page with exactly one true signal fails. -/
theorem verify_login_success_iff_witness :
    numSignals pageTwoSignals = 2 ∧ verify_login_success pageTwoSignals = true
    ∧ numSignals pageOneSignal = 1 ∧ verify_login_success pageOneSignal = false :=
  ⟨by decide, (verify_login_success_iff pageTwoSignals).2.1 (by decide),
   by decide, (verify_login_success_iff pageOneSignal).2.2 (by decide)⟩

theorem twofaGo_step (pg : TwoFAPage) (fuel attempt c : Nat)
    (hleft : twofa_left (pg.urlAfter attempt) = false)
    (hnotlast : attempt ≠ MAX_2FA_RETRIES - 1 ∨ pg.inputFound attempt = true) :
    twofaGoAux pg (fuel + 1) attempt c = twofaGoAux pg fuel (attempt + 1) (c + 1) := by
  cases hi : pg.inputFound attempt
  · rcases hnotlast with h | h
    · simp [twofaGoAux, hi, h]
    · rw [hi] at h; cases h
  · cases hf : pg.fillRaises attempt <;> simp [twofaGoAux, hi, hf, hleft]

theorem twofaGo_last_stuck (pg : TwoFAPage) (c : Nat)
    (hleft : twofa_left (pg.urlAfter 2) = false) :
    twofaGoAux pg 1 2 c = (false, c + 1) := by
  rw [show (1 : Nat) = 0 + 1 from rfl]
  cases hi : pg.inputFound 2
  · simp [twofaGoAux, hi, MAX_2FA_RETRIES]
  · cases hf : pg.fillRaises 2 <;> simp [twofaGoAux, hi, hf, hleft]

theorem twofaGo_hit (pg : TwoFAPage) (fuel attempt c : Nat)
    (hi : pg.inputFound attempt = true) (hf : pg.fillRaises attempt = false)
    (hl : twofa_left (pg.urlAfter attempt) = true) :
    twofaGoAux pg (fuel + 1) attempt c = (true, c + 1) := by
  simp [twofaGoAux, hi, hf, hl]

theorem handle_2fa_exhaust_helper (s : String) (pg : TwoFAPage)
    (hs : s.isEmpty = false)
    (hm : ∀ i, i < MAX_2FA_RETRIES → twofa_left (pg.urlAfter i) = false) :
    handle_2fa_verification (some s) pg = (false, MAX_2FA_RETRIES) := by
  have htr : truthy (some s) = true := by simp [truthy, hs]
  unfold handle_2fa_verification
  rw [htr]
  simp only [Bool.true_eq_false, if_false]
  rw [show MAX_2FA_RETRIES = 2 + 1 from rfl,
      twofaGo_step pg 2 0 0 (hm 0 (by decide)) (Or.inl (by decide)),
      show (2 : Nat) = 1 + 1 from rfl,
      twofaGo_step pg 1 1 1 (hm 1 (by decide)) (Or.inl (by decide)),
      twofaGo_last_stuck pg 2 (hm 2 (by decide))]

/-- Claim C2: with a present TOTP seed, on a page whose location matches the
two-factor pattern at every post-submission check, `handle_2fa_verification`
generates exactly `MAX_2FA_RETRIES` (3) one-time codes — whatever mix of
missing-input-field, raising and rejected-code iterations occurs — and then
returns failure. -/
theorem twofa_retries_exhausted (s : String) (pg : TwoFAPage)
    (hs : s.isEmpty = false)
    (hm : ∀ i, i < MAX_2FA_RETRIES → twofa_left (pg.urlAfter i) = false) :
    handle_2fa_verification (some s) pg = (false, MAX_2FA_RETRIES) :=
  handle_2fa_exhaust_helper s pg hs hm

/-- Witness for C2: a concrete seed and a concrete stuck page exhaust the
three attempts. -/
theorem twofa_retries_exhausted_witness :
    handle_2fa_verification (some "JBSWY3DPEHPK3PXP") twofaStuckPage
      = (false, MAX_2FA_RETRIES) :=
  twofa_retries_exhausted "JBSWY3DPEHPK3PXP" twofaStuckPage rfl (fun _ _ => rfl)

/-- Claim C3: if the page first stops matching the two-factor pattern at the
post-submission check of the Nth attempt (1 ≤ N ≤ MAX_2FA_RETRIES), the
sub-protocol returns success at that check having generated exactly N
one-time codes, performing no further attempts. -/
theorem twofa_succeeds_at_attempt (s : String) (pg : TwoFAPage) (N : Nat)
    (hs : s.isEmpty = false) (hN1 : 1 ≤ N) (hN : N ≤ MAX_2FA_RETRIES)
    (hpre : ∀ i, i < N - 1 → twofa_left (pg.urlAfter i) = false)
    (hin : pg.inputFound (N - 1) = true)
    (hfr : pg.fillRaises (N - 1) = false)
    (hleft : twofa_left (pg.urlAfter (N - 1)) = true) :
    handle_2fa_verification (some s) pg = (true, N) := by
  have htr : truthy (some s) = true := by simp [truthy, hs]
  unfold handle_2fa_verification
  rw [htr]
  simp only [Bool.true_eq_false, if_false]
  have hN' : N ≤ 3 := hN
  interval_cases N
  · rw [show MAX_2FA_RETRIES = 2 + 1 from rfl]
    exact twofaGo_hit pg 2 0 0 hin hfr hleft
  · rw [show MAX_2FA_RETRIES = 2 + 1 from rfl,
        twofaGo_step pg 2 0 0 (hpre 0 (by decide)) (Or.inl (by decide)),
        show (2 : Nat) = 1 + 1 from rfl]
    exact twofaGo_hit pg 1 1 1 hin hfr hleft
  · rw [show MAX_2FA_RETRIES = 2 + 1 from rfl,
        twofaGo_step pg 2 0 0 (hpre 0 (by decide)) (Or.inl (by decide)),
        show (2 : Nat) = 1 + 1 from rfl,
        twofaGo_step pg 1 1 1 (hpre 1 (by decide)) (Or.inl (by decide)),
        show (1 : Nat) = 0 + 1 from rfl]
    exact twofaGo_hit pg 0 2 2 hin hfr hleft

/-- Witness for C3: on a page whose first submission is accepted, the
sub-protocol succeeds with exactly one generated code. -/
theorem twofa_succeeds_at_attempt_witness :
    handle_2fa_verification (some "JBSWY3DPEHPK3PXP") twofaFirstTryPage
      = (true, 1) :=
  twofa_succeeds_at_attempt "JBSWY3DPEHPK3PXP" twofaFirstTryPage 1 rfl
    (by decide) (by decide) (fun i hi => absurd hi (Nat.not_lt_zero i))
    rfl rfl rfl

/-- Claim C8: a falsy TOTP seed makes `handle_2fa_verification` fail at once
with zero codes generated and zero attempts made, and this outcome is
observably distinct from the retries-exhausted failure of a rejected code
(0 codes versus MAX_2FA_RETRIES codes). -/
theorem twofa_missing_secret_distinct (secret : Option String)
    (pg pg' : TwoFAPage) (s : String)
    (hsec : truthy secret = false) (hs : s.isEmpty = false)
    (hm : ∀ i, i < MAX_2FA_RETRIES → twofa_left (pg'.urlAfter i) = false) :
    handle_2fa_verification secret pg = (false, 0)
    ∧ handle_2fa_verification (some s) pg' = (false, MAX_2FA_RETRIES)
    ∧ (handle_2fa_verification secret pg).2
        ≠ (handle_2fa_verification (some s) pg').2 := by
  have h1 : handle_2fa_verification secret pg = (false, 0) := by
    unfold handle_2fa_verification
    rw [hsec]
    simp
  have h2 := handle_2fa_exhaust_helper s pg' hs hm
  refine ⟨h1, h2, ?_⟩
  rw [h1, h2]
  decide

/-- Witness for C8: the missing-secret path and the retries-exhausted path on
concrete pages give distinct observable outcomes. -/
theorem twofa_missing_secret_distinct_witness :
    handle_2fa_verification none twofaStuckPage = (false, 0)
    ∧ handle_2fa_verification (some "JBSWY3DPEHPK3PXP") twofaStuckPage
        = (false, MAX_2FA_RETRIES)
    ∧ (handle_2fa_verification none twofaStuckPage).2
        ≠ (handle_2fa_verification (some "JBSWY3DPEHPK3PXP") twofaStuckPage).2 :=
  twofa_missing_secret_distinct none twofaStuckPage twofaStuckPage
    "JBSWY3DPEHPK3PXP" rfl rfl (fun _ _ => rfl)

/-- Claim C9: in the 2FA success test, the conjunct checking for
`sessions/two-factor` is redundant: for every URL the test is equivalent to
the absence of `two-factor` alone, since `two-factor` is a substring of
`sessions/two-factor`. -/
theorem twofa_left_redundant (u : String) :
    twofa_left u = !(strContains u "two-factor") := by
  unfold twofa_left
  cases h : strContains u "two-factor"
  · have h2 : strContains u "sessions/two-factor" = false := by
      cases h2 : strContains u "sessions/two-factor"
      · rfl
      · exfalso
        have hin : "sessions/two-factor".toList <:+: u.toList :=
          of_decide_eq_true h2
        have hsub : "two-factor".toList <:+: "sessions/two-factor".toList := by
          decide
        have h3 : strContains u "two-factor" = true :=
          decide_eq_true (hsub.trans hin)
        rw [h] at h3
        exact Bool.false_ne_true h3
    rw [h2]
    rfl
  · rfl

/-- Claim C7 counterexample: at wall-clock phase 0 the computed sleep is
exactly 32 seconds — not strictly under 32 — and at the extreme phase 29.9
it is 2.1 seconds, nowhere near 1 second. -/
theorem sleep_window_counterexample :
    sleep_to_next_window 0 = 32
    ∧ ¬ sleep_to_next_window 0 < 32
    ∧ sleep_to_next_window (299 / 10) = 21 / 10 := by
  have h0 : sleep_to_next_window 0 = 32 := by
    unfold sleep_to_next_window pythonMod
    norm_num
  have h299 : sleep_to_next_window (299 / 10) = 21 / 10 := by
    unfold sleep_to_next_window pythonMod
    have hf : ⌊(299 / 10 : ℚ) / 30⌋ = 0 := by
      rw [Int.floor_eq_zero_iff, Set.mem_Ico]
      constructor <;> norm_num
    rw [hf]
    norm_num
  exact ⟨h0, by rw [h0]; exact lt_irrefl 32, h299⟩

/-- Claim C7 amended: over all wall-clock phases the computed sleep duration
lies in the interval (2, 32]: strictly more than 2 seconds and at most 32
seconds (32 being attained at phase 0). -/
theorem sleep_window_range (t : ℚ) :
    2 < sleep_to_next_window t ∧ sleep_to_next_window t ≤ 32 := by
  have hfr : pythonMod t 30 = 30 * Int.fract (t / 30) := by
    unfold pythonMod Int.fract
    ring
  have h0 : 0 ≤ Int.fract (t / 30) := Int.fract_nonneg _
  have h1 : Int.fract (t / 30) < 1 := Int.fract_lt_one _
  unfold sleep_to_next_window
  rw [hfr]
  constructor <;> nlinarith

theorem deviceLoop_skip (pg : DevicePage) (fuel i : Nat)
    (hno : (i % 10 = 0 && device_left (pg.urlAt (i + 1))) = false) :
    deviceLoopAux pg (fuel + 1) i = deviceLoopAux pg fuel (i + 1) := by
  simp [deviceLoopAux, hno]

theorem deviceLoop_advance (pg : DevicePage) (n : Nat) :
    ∀ fuel i,
      (∀ k, i ≤ k → k < i + n →
        (k % 10 = 0 && device_left (pg.urlAt (k + 1))) = false) →
      deviceLoopAux pg (fuel + n) i = deviceLoopAux pg fuel (i + n) := by
  induction n with
  | zero => intro fuel i _; rfl
  | succ m ih =>
    intro fuel i hk
    rw [show fuel + (m + 1) = (fuel + m) + 1 from by omega,
        deviceLoop_skip pg (fuel + m) i (hk i (Nat.le_refl i) (by omega)),
        ih fuel (i + 1) (fun k h1 h2 => hk k (by omega) (by omega))]
    congr 1
    omega

/-- Claim C4 counterexample: on the concrete page whose location changes at
second 45, the polling loop returns success only after 51 elapsed seconds
(the `i = 50` check), not at or immediately after second 45. -/
theorem device_poll_counterexample :
    handle_device_verification devPageChangeAt45 = (true, 51)
    ∧ 46 < (handle_device_verification devPageChangeAt45).2 := by
  constructor <;> decide

/-- Claim C4 amended: the poll checks the location only at ticks `i` with
`i % 10 = 0` (elapsed seconds 1, 11, 21, 31, 41, 51) plus a final check at
second 60; for a page whose location changes at second 45 it succeeds at the
elapsed-51 check — before the full 60 seconds, though not immediately after
the change — and for a page that never leaves the pattern it fails after the
final check at second 60. -/
theorem device_poll_amended (pg pg' : DevicePage)
    (hbefore : ∀ t, t < 45 → device_left (pg.urlAt t) = false)
    (hafter : ∀ t, 45 ≤ t → device_left (pg.urlAt t) = true)
    (hnever : ∀ t, t ≤ 60 → device_left (pg'.urlAt t) = false) :
    handle_device_verification pg = (true, 51)
    ∧ (handle_device_verification pg).2 < 60
    ∧ handle_device_verification pg' = (false, 60) := by
  have h1 : handle_device_verification pg = (true, 51) := by
    unfold handle_device_verification
    rw [show (60 : Nat) = 10 + 50 from rfl,
        deviceLoop_advance pg 50 10 0 ?hk]
    case hk =>
      intro k _ hk50
      by_cases h : k % 10 = 0
      · have hlt : k + 1 < 45 := by omega
        simp [h, hbefore (k + 1) hlt]
      · simp [h]
    rw [show (10 : Nat) = 9 + 1 from rfl]
    simp [deviceLoopAux, hafter 51 (by omega)]
  have h2 : handle_device_verification pg' = (false, 60) := by
    unfold handle_device_verification
    rw [show (60 : Nat) = 0 + 60 from rfl,
        deviceLoop_advance pg' 60 0 0 ?hk2]
    case hk2 =>
      intro k _ hk60
      by_cases h : k % 10 = 0
      · have hle : k + 1 ≤ 60 := by omega
        simp [h, hnever (k + 1) hle]
      · simp [h]
    simp [deviceLoopAux, hnever 60 (by omega)]
  exact ⟨h1, by rw [h1]; omega, h2⟩

/-- Witness for the amended C4: the two concrete pages realize the two
conclusions. -/
theorem device_poll_amended_witness :
    handle_device_verification devPageChangeAt45 = (true, 51)
    ∧ (handle_device_verification devPageChangeAt45).2 < 60
    ∧ handle_device_verification devPageNeverLeaves = (false, 60) :=
  device_poll_amended devPageChangeAt45 devPageNeverLeaves
    (fun t ht => by
      have h : devPageChangeAt45.urlAt t
          = "https://github.com/sessions/verified-device" := by
        unfold devPageChangeAt45
        simp [ht]
      rw [h]
      rfl)
    (fun t ht => by
      have h : devPageChangeAt45.urlAt t
          = "https://ap-northeast-1.run.claw.cloud/" := by
        unfold devPageChangeAt45
        simp [Nat.not_lt_of_le ht]
      rw [h]
      rfl)
    (fun t _ => rfl)

/-- Claim C5: if either credential environment variable is unset or empty,
`run_login` exits at once with the missing-credentials error and code 1
(non-zero), before any browser is launched or page is opened. -/
theorem missing_credentials_immediate (env : Env)
    (h : truthy env.gh_username = false ∨ truthy env.gh_password = false) :
    run_login_start env = .exitCode 1
    ∧ run_login_start env ≠ .browserLaunched
    ∧ (1 : Nat) ≠ 0 := by
  have h1 : run_login_start env = .exitCode 1 := by
    unfold run_login_start
    rcases h with h | h <;> simp [h]
  exact ⟨h1, by rw [h1]; simp, by omega⟩

/-- Witness for C5: an environment with the username unset exits with code 1
before the browser step. -/
theorem missing_credentials_immediate_witness :
    run_login_start envNoUsername = .exitCode 1
    ∧ run_login_start envNoUsername ≠ .browserLaunched
    ∧ (1 : Nat) ≠ 0 :=
  missing_credentials_immediate envNoUsername (Or.inl rfl)

/-- Claim C6 counterexample: two different fatal conditions share the exit
code 1, so the exit code does not distinguish a fatal condition from the
other fatal conditions. -/
theorem exit_codes_counterexample :
    exitCodeOf .missingCredentials = exitCodeOf .providerButtonNotFound
    ∧ FailureReason.missingCredentials ≠ FailureReason.providerButtonNotFound :=
  ⟨rfl, by decide⟩

/-- Claim C6 amended: every fatal condition terminates with a non-zero exit
code; all programmatic failures share the exit code 1, and the user-interrupt
path exits with 130, distinct from every programmatic failure. -/
theorem exit_codes_amended (r : FailureReason) :
    exitCodeOf r ≠ 0
    ∧ (r ≠ .userInterrupted → exitCodeOf r = 1)
    ∧ (r ≠ .userInterrupted → exitCodeOf .userInterrupted ≠ exitCodeOf r) := by
  cases r <;> simp [exitCodeOf]

/-- Witness for the amended C6: instantiated at the missing-credentials
condition. -/
theorem exit_codes_amended_witness :
    exitCodeOf .missingCredentials ≠ 0
    ∧ exitCodeOf .missingCredentials = 1
    ∧ exitCodeOf .userInterrupted ≠ exitCodeOf .missingCredentials :=
  ⟨(exit_codes_amended .missingCredentials).1,
   (exit_codes_amended .missingCredentials).2.1 (by decide),
   (exit_codes_amended .missingCredentials).2.2 (by decide)⟩

/-- Claim C10: the credential-submission step is fatal (exit code 1, flow
stops) not only when no submit control is found but also when the username
field does not become visible within its wait or any fill operation raises:
`fill_github_credentials` returns failure in each of these cases and the
caller exits with a non-zero code. -/
theorem cred_submission_fatal (pg : CredPage)
    (h : pg.loginFieldVisible = false ∨ pg.fillRaises = true
      ∨ ∀ s ∈ submit_selectors, pg.vis s = false) :
    fill_github_credentials pg = false
    ∧ github_login_step pg = some 1
    ∧ (1 : Nat) ≠ 0 := by
  have hf : fill_github_credentials pg = false := by
    unfold fill_github_credentials
    rcases h with h | h | h
    · simp [h]
    · simp [h]
    · cases hc : (!pg.loginFieldVisible || pg.fillRaises)
      · simp only [hc, Bool.false_eq_true, if_false]
        unfold try_click
        rw [List.any_eq_false]
        intro s hs
        simp [h s hs]
      · simp [hc]
  refine ⟨hf, ?_, by omega⟩
  unfold github_login_step
  rw [hf]
  rfl

/-- Witness for C10: a page whose fields fill fine but which has no submit
control fails and is treated as fatal. -/
theorem cred_submission_fatal_witness :
    fill_github_credentials credPageNoSubmit = false
    ∧ github_login_step credPageNoSubmit = some 1
    ∧ (1 : Nat) ≠ 0 :=
  cred_submission_fatal credPageNoSubmit
    (Or.inr (Or.inr (fun _ _ => rfl)))
